import Mathlib

/-!
Verification of the ALICE Kinematics Cloud repository against its
natural-language specification.  The frontend API client, the zustand
kinematics store, the console page request builders and the SQL domain
schema are embedded from the sources under src/; the Rust core engine
(IK solver, intent compressor, preset registry) is not part of the
sources, so those components are modelled from the spec, as marked on
their definitions.
-/

namespace Client

/-- HTTP method of a fetch call; fetch defaults to GET when the options
carry no method. -/
inductive HttpMethod where
  | get
  | post
deriving DecidableEq, Repr

/-- The method/path pair a frontend api operation sends, embedded from
src/frontend/lib/api/client.ts: each api helper calls
request(path, options) and fetch uses options.method, defaulting to GET. -/
structure ApiCall where
  method : HttpMethod
  path : String
deriving DecidableEq, Repr

/-- request(path, options) forwards options.method to fetch; absent
options mean the fetch default GET (client.ts lines 3-10). -/
def requestCall (path : String) (method : Option HttpMethod) : ApiCall :=
  { method := method.getD HttpMethod.get, path := path }

/-- api.health from client.ts: request called with no options. -/
def apiHealth : ApiCall := requestCall "/health" none

/-- api.solveIk from client.ts: method POST. -/
def apiSolveIk : ApiCall :=
  requestCall "/api/v1/kinematics/solve-ik" (some HttpMethod.post)

/-- api.solveFk from client.ts: method POST. -/
def apiSolveFk : ApiCall :=
  requestCall "/api/v1/kinematics/solve-fk" (some HttpMethod.post)

/-- api.compressIntent from client.ts: method POST. -/
def apiCompressIntent : ApiCall :=
  requestCall "/api/v1/kinematics/compress-intent" (some HttpMethod.post)

/-- api.optimizeTrajectory from client.ts: method POST. -/
def apiOptimizeTrajectory : ApiCall :=
  requestCall "/api/v1/kinematics/optimize-trajectory" (some HttpMethod.post)

/-- api.chains from client.ts: request called with no options. -/
def apiChains : ApiCall := requestCall "/api/v1/kinematics/chains" none

/-- api.stats from client.ts: request called with no options. -/
def apiStats : ApiCall := requestCall "/api/v1/kinematics/stats" none

/-- An HTTP response as the request helper sees it: a numeric status and
the already-parsed JSON payload (res.json() is modelled as returning the
payload value). -/
structure HttpResponse (α : Type) where
  status : Nat
  body : α

/-- fetch Response.ok: true exactly when the status is in 200..299. -/
def responseOk {α : Type} (r : HttpResponse α) : Bool :=
  decide (200 ≤ r.status) && decide (r.status < 300)

/-- The request helper of client.ts lines 3-10: on a non-ok response it
throws an Error whose message interpolates the status; otherwise it
resolves with the parsed JSON body.  Throwing is modelled as
Except.error carrying the message. -/
def request {α : Type} (r : HttpResponse α) : Except String α :=
  if responseOk r then Except.ok r.body
  else Except.error ("API error: " ++ toString r.status)

end Client

namespace Store

/-- The kinematics store state from src/unnamed/part_000: chain id,
last result (a parsed JSON object, kept abstract as the type parameter)
and the loading flag. -/
structure KinematicsState (α : Type) where
  chain : String
  result : Option α
  loading : Bool
deriving DecidableEq, Repr

/-- The store's creation-time state: chain 'human_arm', result null,
loading false. -/
def initialState {α : Type} : KinematicsState α :=
  { chain := "human_arm", result := none, loading := false }

/-- setChain: zustand set with a partial state holding only chain. -/
def setChain {α : Type} (v : String) (s : KinematicsState α) : KinematicsState α :=
  { s with chain := v }

/-- setResult: zustand set with a partial state holding only result. -/
def setResult {α : Type} (v : Option α) (s : KinematicsState α) : KinematicsState α :=
  { s with result := v }

/-- setLoading: zustand set with a partial state holding only loading. -/
def setLoading {α : Type} (v : Bool) (s : KinematicsState α) : KinematicsState α :=
  { s with loading := v }

/-- reset: set with the full literal state of the store's initializer. -/
def reset {α : Type} (_ : KinematicsState α) : KinematicsState α :=
  { chain := "human_arm", result := none, loading := false }

/-- One store action, for quantifying over action sequences. -/
inductive Action (α : Type) where
  | setChain (v : String)
  | setResult (v : Option α)
  | setLoading (v : Bool)
  | reset

/-- Apply one action to the state. -/
def applyAction {α : Type} : Action α → KinematicsState α → KinematicsState α
  | Action.setChain v, s => setChain v s
  | Action.setResult v, s => setResult v s
  | Action.setLoading v, s => setLoading v s
  | Action.reset, s => reset s

/-- Run a sequence of actions from a state, oldest first. -/
def runActions {α : Type} : List (Action α) → KinematicsState α → KinematicsState α
  | [], s => s
  | a :: rest, s => runActions rest (applyAction a s)

end Store

namespace Console

/-- A motion sample as the console page builds it: a timestamp in
milliseconds and a 3-vector position.  Positions are exact rationals in
the model. -/
structure MotionSample where
  timestamp_ms : Nat
  position : ℚ × ℚ × ℚ

/-- The compress-intent request body: samples plus sample_rate_hz. -/
structure CompressIntentRequest where
  samples : List MotionSample
  sample_rate_hz : ℚ

/-- The intent tab's sample generator of
src/frontend/app/dashboard/console/page.tsx: 100 samples with
timestamp_ms = i * 10 and position computed from sin/cos of i.  The
position formula (sin(0.1 i) * 0.5, cos(0.1 i) * 0.3, 0.005 i) is kept
abstract as the function pos, since transcendental values have no exact
rational form and no validity condition inspects positions. -/
def consoleIntentRequest (pos : Nat → ℚ × ℚ × ℚ) : CompressIntentRequest :=
  { samples := (List.range 100).map fun i =>
      { timestamp_ms := i * 10, position := pos i }
  , sample_rate_hz := 100 }

/-- Adjacent-pair non-decreasing check on a list of naturals. -/
def natChainLe : List Nat → Bool
  | [] => true
  | [_] => true
  | a :: b :: rest => decide (a ≤ b) && natChainLe (b :: rest)

/-- Adjacent-pair strictly-increasing check on a list of naturals. -/
def natChainLt : List Nat → Bool
  | [] => true
  | [_] => true
  | a :: b :: rest => decide (a < b) && natChainLt (b :: rest)

/-- Timestamps of a sample stream are non-decreasing (the spec's
monotonicity requirement on compress-intent input). -/
def timestampsMonotone (l : List MotionSample) : Bool :=
  natChainLe (l.map MotionSample.timestamp_ms)

/-- Timestamps of a sample stream are strictly increasing. -/
def timestampsStrict (l : List MotionSample) : Bool :=
  natChainLt (l.map MotionSample.timestamp_ms)

/-- The spec's validity precondition for compress-intent: reject empty
samples, non-monotonic timestamps, or sample_rate_hz ≤ 0. -/
def validCompressRequest (r : CompressIntentRequest) : Bool :=
  !r.samples.isEmpty && timestampsMonotone r.samples
    && decide (0 < r.sample_rate_hz)

end Console

namespace DB

/-- A row of public.kinematic_chains from
src/database/migrations/006_domain.sql.  uuid, jsonb and timestamptz
columns are modelled as strings; nullable columns as options. -/
structure KinematicChainsRow where
  id : String
  user_id : Option String
  name : String
  chain_type : String
  joint_count : Int
  dof : Int
  joints : String
  end_effector_count : Option Int
  workspace_volume : Option ℚ
  created_at : Option String

/-- A row of public.ik_solver_jobs from 006_domain.sql. -/
structure IkSolverJobsRow where
  id : String
  user_id : Option String
  chain_id : Option String
  solver_type : String
  target_position : String
  target_orientation : Option String
  status : Option String
  iterations : Option Int
  residual_error : Option ℚ
  solution : Option String
  solve_time_ms : Option ℚ
  created_at : Option String

/-- The check constraint on kinematic_chains.chain_type. -/
def chainTypeAllowed (t : String) : Bool :=
  t = "serial" || t = "parallel" || t = "tree" || t = "closed_loop"

/-- The check constraint on ik_solver_jobs.solver_type. -/
def solverTypeAllowed (t : String) : Bool :=
  t = "ccd" || t = "fabrik" || t = "jacobian" || t = "analytical" || t = "hybrid"

/-- Insert into kinematic_chains: an omitted chain_type takes the
default 'serial'; the check constraint then accepts or rejects the row. -/
def insertKinematicChains (row : KinematicChainsRow)
    (providedChainType : Option String) : Option KinematicChainsRow :=
  let t := providedChainType.getD "serial"
  if chainTypeAllowed t then some { row with chain_type := t } else none

/-- Insert into ik_solver_jobs: an omitted solver_type takes the
default 'ccd'; the check constraint then accepts or rejects the row. -/
def insertIkSolverJobs (row : IkSolverJobsRow)
    (providedSolverType : Option String) : Option IkSolverJobsRow :=
  let t := providedSolverType.getD "ccd"
  if solverTypeAllowed t then some { row with solver_type := t } else none

end DB

namespace Engine

/-- Modelled from the spec: outcome of the IK solver (spec 4.2) — the
returned joint vector (state kept abstract), the iteration count, the
converged flag and the reported residual norm.  The Rust engine source
is not in the repository snapshot. -/
structure IKOutcome (σ : Type) where
  q : σ
  iterations : Nat
  converged : Bool
  error_distance : ℚ

/-- The sequence of iterates a step function produces from a start
state: the start and each of n successor states. -/
def iterates {σ : Type} (step : σ → σ) : Nat → σ → List σ
  | 0, q => [q]
  | n + 1, q => q :: iterates step n (step q)

/-- Keep the state of smaller residual norm: the best-so-far update of
the solver loop. -/
def bestOf {σ : Type} (res : σ → ℚ) (q best : σ) : σ :=
  if res q < res best then q else best

/-- Modelled from the spec: the DLS iteration loop of spec 4.2 step 4.
One damped-least-squares update (Jacobian, damping schedule, CCD
fallback) is abstracted into the step function and the residual norm
into res, since the Rust solver source is missing; the termination
logic is the spec's: stop with converged=true as soon as res q ≤ tol,
stop with converged=false once the iteration budget is exhausted,
returning the best-so-far state by minimum residual.  fuel is the
remaining budget, iters the iterations already spent, best the
minimum-residual state seen so far. -/
def ikLoop {σ : Type} (step : σ → σ) (res : σ → ℚ) (tol : ℚ) :
    Nat → Nat → σ → σ → IKOutcome σ
  | 0, iters, q, best =>
    if res q ≤ tol then
      { q := q, iterations := iters, converged := true, error_distance := res q }
    else
      { q := bestOf res q best, iterations := iters, converged := false
      , error_distance := res (bestOf res q best) }
  | fuel + 1, iters, q, best =>
    if res q ≤ tol then
      { q := q, iterations := iters, converged := true, error_distance := res q }
    else
      ikLoop step res tol fuel (iters + 1) (step q) (bestOf res q best)

/-- Modelled from the spec: run the IK solver from an initial state with
the given iteration budget. -/
def solveIK {σ : Type} (step : σ → σ) (res : σ → ℚ) (tol : ℚ)
    (maxIter : Nat) (q0 : σ) : IKOutcome σ :=
  ikLoop step res tol maxIter 0 q0 q0

/-- Modelled from the spec: the HTTP handler for solve-ik always wraps
the solver outcome in a 200 response; non-convergence is not an error
(spec 7, error taxonomy item 3). -/
def ikHandler {σ : Type} (step : σ → σ) (res : σ → ℚ) (tol : ℚ)
    (maxIter : Nat) (q0 : σ) : Nat × IKOutcome σ :=
  (200, solveIK step res tol maxIter q0)

/-- A chain preset record (spec 3, chain preset). -/
structure ChainPreset where
  id : String
  name : String
  dof : Nat
  joint_type_summary : String
  description : String
deriving DecidableEq, Repr

/-- Modelled from the spec: the preset registry of spec 4.5 — a
read-only table of five chains in declaration order; the Rust engine
source holding it is missing.  Names and descriptions follow the
repository README chain table. -/
def presetRegistry : List ChainPreset :=
  [ { id := "human_arm", name := "Human Arm", dof := 7
    , joint_type_summary := "revolute"
    , description := "Shoulder(3) + elbow(1) + wrist(3)" }
  , { id := "human_leg", name := "Human Leg", dof := 6
    , joint_type_summary := "revolute"
    , description := "Hip(3) + knee(1) + ankle(2)" }
  , { id := "robotic_arm_6dof", name := "Robotic Arm 6DOF", dof := 6
    , joint_type_summary := "revolute"
    , description := "Standard industrial manipulator" }
  , { id := "delta_robot", name := "Delta Robot", dof := 3
    , joint_type_summary := "prismatic"
    , description := "High-speed pick-and-place" }
  , { id := "scara", name := "SCARA", dof := 4
    , joint_type_summary := "revolute+prismatic"
    , description := "Selective compliance assembly" } ]

/-- Modelled from the spec: GET chains returns the registry in
declaration order (spec 4.5). -/
def getChains : List ChainPreset := presetRegistry

/-- Per-sample byte size used by the compression ratio: timestamp 8 +
position 24 (spec 4.3). -/
def sampleByteSize : Nat := 32

/-- Size of a packed intent record in bytes. -/
def compressedBytes : Nat := 8

/-- Modelled from the spec: compression_ratio =
original_sample_byte_size / 8 with a 32-byte per-sample size
(spec 4.3); the Rust compressor source is missing. -/
def compressionRatio (n : Nat) : ℚ :=
  ((sampleByteSize * n : Nat) : ℚ) / (compressedBytes : ℚ)

/-- An intent record (spec 3): class in the five-element enumeration,
direction 3-vector, magnitude in meters. -/
structure IntentRecord where
  cls : Fin 5
  dx : ℚ
  dy : ℚ
  dz : ℚ
  mag : ℚ

/-- The 8-byte packed intent form (spec 6, intent wire format): byte 0
carries the class tag 0-4, bytes 1-3 three signed int8 fixed-point
direction components at scale 127, bytes 4-7 the magnitude as a
little-endian float32.  The stored float32 value is modelled as the
rational the rounding produced. -/
structure PackedIntent where
  tagByte : Fin 5
  d1 : Int
  d2 : Int
  d3 : Int
  magBits : ℚ

/-- Encode one direction component as a signed 8-bit fixed-point value
at scale 127. -/
def encodeDirComponent (d : ℚ) : Int := round (d * 127)

/-- Decode one signed 8-bit fixed-point direction component. -/
def decodeDirComponent (i : Int) : ℚ := (i : ℚ) / 127

/-- Modelled from the spec: pack an intent record into the 8-byte wire
form.  float32 rounding of the magnitude is kept abstract as rnd,
since IEEE-754 encoding depends only on the rounding it performs. -/
def packIntent (rnd : ℚ → ℚ) (r : IntentRecord) : PackedIntent :=
  { tagByte := r.cls
  , d1 := encodeDirComponent r.dx
  , d2 := encodeDirComponent r.dy
  , d3 := encodeDirComponent r.dz
  , magBits := rnd r.mag }

/-- Modelled from the spec: decoding is the exact inverse of the
packing (spec 4.3). -/
def unpackIntent (p : PackedIntent) : IntentRecord :=
  { cls := p.tagByte
  , dx := decodeDirComponent p.d1
  , dy := decodeDirComponent p.d2
  , dz := decodeDirComponent p.d3
  , mag := p.magBits }

end Engine

/-- The best-of-two state is no worse than the current state. -/
lemma bestOf_le_left {σ : Type} (res : σ → ℚ) (q best : σ) :
    res (Engine.bestOf res q best) ≤ res q := by
  unfold Engine.bestOf
  split
  · exact le_refl _
  · linarith [not_lt.mp (by assumption : ¬ res q < res best)]

/-- The best-of-two state is no worse than the stored best. -/
lemma bestOf_le_right {σ : Type} (res : σ → ℚ) (q best : σ) :
    res (Engine.bestOf res q best) ≤ res best := by
  unfold Engine.bestOf
  split
  · exact le_of_lt (by assumption)
  · exact le_refl _

/-- Loop invariant of the modelled IK iteration: a converged outcome
has residual at most the tolerance; a non-converged outcome has spent
the whole budget and returns the minimum-residual state among the
stored best and every iterate still visited. -/
lemma ikLoop_invariant {σ : Type} (step : σ → σ) (res : σ → ℚ) (tol : ℚ) :
    ∀ (fuel iters : Nat) (q best : σ),
      ((Engine.ikLoop step res tol fuel iters q best).converged = true →
        (Engine.ikLoop step res tol fuel iters q best).error_distance ≤ tol) ∧
      ((Engine.ikLoop step res tol fuel iters q best).converged = false →
        (Engine.ikLoop step res tol fuel iters q best).iterations = iters + fuel ∧
        res (Engine.ikLoop step res tol fuel iters q best).q ≤ res best ∧
        (Engine.ikLoop step res tol fuel iters q best).error_distance =
          res (Engine.ikLoop step res tol fuel iters q best).q ∧
        ∀ s ∈ Engine.iterates step fuel q,
          res (Engine.ikLoop step res tol fuel iters q best).q ≤ res s) := by
  intro fuel
  induction fuel with
  | zero =>
    intro iters q best
    by_cases hq : res q ≤ tol
    · constructor
      · intro _
        simp [Engine.ikLoop, hq]
      · intro hconv
        simp [Engine.ikLoop, hq] at hconv
    · constructor
      · intro hconv
        simp [Engine.ikLoop, hq] at hconv
      · intro _
        refine ⟨by simp [Engine.ikLoop, hq], ?_, by simp [Engine.ikLoop, hq], ?_⟩
        · simpa [Engine.ikLoop, hq] using bestOf_le_right res q best
        · intro s hs
          simp [Engine.iterates] at hs
          rw [hs]
          simpa [Engine.ikLoop, hq] using bestOf_le_left res q best
  | succ fuel ih =>
    intro iters q best
    by_cases hq : res q ≤ tol
    · constructor
      · intro _
        simp [Engine.ikLoop, hq]
      · intro hconv
        simp [Engine.ikLoop, hq] at hconv
    · have hrec := ih (iters + 1) (step q) (Engine.bestOf res q best)
      have hunf : Engine.ikLoop step res tol (fuel + 1) iters q best
          = Engine.ikLoop step res tol fuel (iters + 1) (step q)
              (Engine.bestOf res q best) := by
        simp [Engine.ikLoop, hq]
      rw [hunf]
      refine ⟨hrec.1, ?_⟩
      intro hconv
      obtain ⟨hit, hle, herr, hall⟩ := hrec.2 hconv
      refine ⟨by omega, le_trans hle (bestOf_le_right res q best), herr, ?_⟩
      intro s hs
      simp [Engine.iterates] at hs
      rcases hs with hs1 | hs
      · rw [hs1]
        exact le_trans hle (bestOf_le_left res q best)
      · exact hall s hs

/-- Claim C1: the IK solver terminates exactly with converged=true and
residual at most the tolerance, or with converged=false after spending
max_iterations, returning the minimum-residual joint state among all
visited iterates, and the handler wraps either outcome in an HTTP 200
response. -/
theorem c1_ik_termination {σ : Type} (step : σ → σ) (res : σ → ℚ) (tol : ℚ)
    (maxIter : Nat) (q0 : σ) :
    ((Engine.solveIK step res tol maxIter q0).converged = true →
      (Engine.solveIK step res tol maxIter q0).error_distance ≤ tol) ∧
    ((Engine.solveIK step res tol maxIter q0).converged = false →
      (Engine.solveIK step res tol maxIter q0).iterations = maxIter ∧
      (Engine.solveIK step res tol maxIter q0).error_distance =
        res (Engine.solveIK step res tol maxIter q0).q ∧
      ∀ s ∈ Engine.iterates step maxIter q0,
        res (Engine.solveIK step res tol maxIter q0).q ≤ res s) ∧
    (Engine.ikHandler step res tol maxIter q0).fst = 200 := by
  simp only [Engine.solveIK, Engine.ikHandler]
  have h := ikLoop_invariant step res tol maxIter 0 q0 q0
  refine ⟨h.1, ?_, trivial⟩
  intro hconv
  obtain ⟨hit, _, herr, hall⟩ := h.2 hconv
  exact ⟨by omega, herr, hall⟩

/-- Concrete instance of c1_ik_termination: a residual that hits the
tolerance after three steps reports it within bound, and a residual
that never reaches the tolerance exhausts the five-iteration budget. -/
theorem c1_ik_termination_witness :
    (Engine.solveIK (fun n => n + 1)
      (fun n : Nat => if 3 ≤ n then 0 else 1) 0 5 0).error_distance ≤ 0 ∧
    (Engine.solveIK (fun n => n + 1)
      (fun _ : Nat => (1 : ℚ)) 0 5 0).iterations = 5 := by
  constructor
  · exact (c1_ik_termination (fun n => n + 1)
      (fun n : Nat => if 3 ≤ n then 0 else 1) 0 5 0).1 (by decide)
  · exact ((c1_ik_termination (fun n => n + 1)
      (fun _ : Nat => (1 : ℚ)) 0 5 0).2.1 (by decide)).1

/-- Claim C2: every operation of the frontend API client sends exactly
the HTTP method and path pair of the spec's endpoint table. -/
theorem c2_api_endpoints :
    Client.apiSolveIk =
      { method := Client.HttpMethod.post, path := "/api/v1/kinematics/solve-ik" } ∧
    Client.apiSolveFk =
      { method := Client.HttpMethod.post, path := "/api/v1/kinematics/solve-fk" } ∧
    Client.apiCompressIntent =
      { method := Client.HttpMethod.post, path := "/api/v1/kinematics/compress-intent" } ∧
    Client.apiOptimizeTrajectory =
      { method := Client.HttpMethod.post, path := "/api/v1/kinematics/optimize-trajectory" } ∧
    Client.apiChains =
      { method := Client.HttpMethod.get, path := "/api/v1/kinematics/chains" } ∧
    Client.apiStats =
      { method := Client.HttpMethod.get, path := "/api/v1/kinematics/stats" } ∧
    Client.apiHealth = { method := Client.HttpMethod.get, path := "/health" } :=
  ⟨rfl, rfl, rfl, rfl, rfl, rfl, rfl⟩

/-- Claim C3: the preset registry holds exactly five chains with ids
human_arm (7 DOF), human_leg (6), robotic_arm_6dof (6), delta_robot (3)
and scara (4), and GET chains returns them in declaration order. -/
theorem c3_preset_registry :
    Engine.getChains = Engine.presetRegistry ∧
    Engine.presetRegistry.length = 5 ∧
    Engine.presetRegistry.map (fun c => (c.id, c.dof)) =
      [("human_arm", 7), ("human_leg", 6), ("robotic_arm_6dof", 6),
       ("delta_robot", 3), ("scara", 4)] :=
  ⟨rfl, rfl, rfl⟩

/-- Claim C4: compression_ratio is the original sample byte size over 8
with 32 bytes per sample, hence 4·n for n samples and 8 for 2 samples. -/
theorem c4_compression_ratio (n : Nat) :
    Engine.compressionRatio n = 4 * n ∧ Engine.compressionRatio 2 = 8 := by
  constructor
  · unfold Engine.compressionRatio Engine.sampleByteSize Engine.compressedBytes
    rw [div_eq_iff (by norm_num : ((8 : Nat) : ℚ) ≠ 0)]
    push_cast
    ring
  · norm_num [Engine.compressionRatio, Engine.sampleByteSize, Engine.compressedBytes]

/-- Claim C6: the compress-intent request the console page's sample
generator builds always satisfies the spec's validity preconditions,
whatever the sampled positions are: 100 samples, strictly increasing
(hence non-decreasing) timestamps, positive sample rate. -/
theorem c6_console_intent_request_valid (pos : Nat → ℚ × ℚ × ℚ) :
    Console.validCompressRequest (Console.consoleIntentRequest pos) = true ∧
    (Console.consoleIntentRequest pos).samples.length = 100 ∧
    Console.timestampsStrict (Console.consoleIntentRequest pos).samples = true := by
  have hmap : (Console.consoleIntentRequest pos).samples.map
      Console.MotionSample.timestamp_ms = (List.range 100).map (fun i => i * 10) := by
    simp [Console.consoleIntentRequest, List.map_map]
  have hstrict :
      Console.timestampsStrict (Console.consoleIntentRequest pos).samples = true := by
    unfold Console.timestampsStrict
    rw [hmap]
    decide
  have hmono :
      Console.timestampsMonotone (Console.consoleIntentRequest pos).samples = true := by
    unfold Console.timestampsMonotone
    rw [hmap]
    decide
  have hlen : (Console.consoleIntentRequest pos).samples.length = 100 := by
    simp [Console.consoleIntentRequest]
  have hne : (Console.consoleIntentRequest pos).samples.isEmpty = false := by
    cases h : (Console.consoleIntentRequest pos).samples with
    | nil => rw [h] at hlen; simp at hlen
    | cons a t => simp [List.isEmpty]
  refine ⟨?_, hlen, hstrict⟩
  unfold Console.validCompressRequest
  rw [hne, hmono]
  simp [Console.consoleIntentRequest]

/-- Claim C7: the domain schema defines the kinematic_chains and
ik_solver_jobs tables; every row an insert admits satisfies the
chain_type and solver_type check constraints, and an omitted value
takes the default 'serial' resp. 'ccd', which the constraints admit. -/
theorem c7_domain_schema_invariants :
    (∀ (row : DB.KinematicChainsRow) (t : Option String) (r : DB.KinematicChainsRow),
      DB.insertKinematicChains row t = some r →
        DB.chainTypeAllowed r.chain_type = true) ∧
    (∀ (row : DB.IkSolverJobsRow) (t : Option String) (r : DB.IkSolverJobsRow),
      DB.insertIkSolverJobs row t = some r →
        DB.solverTypeAllowed r.solver_type = true) ∧
    (∀ row : DB.KinematicChainsRow, ∃ r, DB.insertKinematicChains row none = some r ∧
      r.chain_type = "serial") ∧
    (∀ row : DB.IkSolverJobsRow, ∃ r, DB.insertIkSolverJobs row none = some r ∧
      r.solver_type = "ccd") := by
  refine ⟨?_, ?_, ?_, ?_⟩
  · intro row t r h
    by_cases hc : DB.chainTypeAllowed (t.getD "serial") = true
    · simp only [DB.insertKinematicChains, hc, if_true, Option.some.injEq] at h
      rw [← h]
      exact hc
    · simp [DB.insertKinematicChains, hc] at h
  · intro row t r h
    by_cases hc : DB.solverTypeAllowed (t.getD "ccd") = true
    · simp only [DB.insertIkSolverJobs, hc, if_true, Option.some.injEq] at h
      rw [← h]
      exact hc
    · simp [DB.insertIkSolverJobs, hc] at h
  · intro row
    exact ⟨{ row with chain_type := "serial" },
      by simp [DB.insertKinematicChains, DB.chainTypeAllowed], rfl⟩
  · intro row
    exact ⟨{ row with solver_type := "ccd" },
      by simp [DB.insertIkSolverJobs, DB.solverTypeAllowed], rfl⟩

/-- A concrete row used to instantiate the schema theorems. -/
def sampleChainRow : DB.KinematicChainsRow :=
  { id := "c0", user_id := none, name := "arm", chain_type := "serial"
  , joint_count := 7, dof := 7, joints := "[]", end_effector_count := some 1
  , workspace_volume := none, created_at := none }

/-- A concrete job row used to instantiate the schema theorems. -/
def sampleJobRow : DB.IkSolverJobsRow :=
  { id := "j0", user_id := none, chain_id := none, solver_type := "ccd"
  , target_position := "[0,0,0]", target_orientation := none
  , status := some "pending", iterations := none, residual_error := none
  , solution := none, solve_time_ms := none, created_at := none }

/-- Concrete instance of c7_domain_schema_invariants: an accepted
insert with chain_type 'tree' and one with solver_type 'hybrid' land
inside the check-constraint sets. -/
theorem c7_domain_schema_invariants_witness :
    DB.chainTypeAllowed
      ({ sampleChainRow with chain_type := "tree" } : DB.KinematicChainsRow).chain_type
        = true ∧
    DB.solverTypeAllowed
      ({ sampleJobRow with solver_type := "hybrid" } : DB.IkSolverJobsRow).solver_type
        = true := by
  constructor
  · exact c7_domain_schema_invariants.1 sampleChainRow (some "tree")
      { sampleChainRow with chain_type := "tree" }
      (by simp [DB.insertKinematicChains, DB.chainTypeAllowed])
  · exact c7_domain_schema_invariants.2.1 sampleJobRow (some "hybrid")
      { sampleJobRow with solver_type := "hybrid" }
      (by simp [DB.insertIkSolverJobs, DB.solverTypeAllowed])

/-- Claim C8: the request helper rejects every non-ok response with an
Error message interpolating the status and never yields the body, and
resolves every ok response with the parsed JSON body. -/
theorem c8_request_error_handling {α : Type} (r : Client.HttpResponse α) :
    (Client.responseOk r = false →
      Client.request r = Except.error ("API error: " ++ toString r.status) ∧
      ∀ b : α, Client.request r ≠ Except.ok b) ∧
    (Client.responseOk r = true → Client.request r = Except.ok r.body) := by
  constructor
  · intro h
    constructor
    · simp [Client.request, h]
    · intro b
      simp [Client.request, h]
  · intro h
    simp [Client.request, h]

/-- Concrete instance of c8_request_error_handling: a 400 response
throws the interpolated message and a 200 response yields its body. -/
theorem c8_request_error_handling_witness :
    Client.request ({ status := 400, body := 0 } : Client.HttpResponse Nat) =
      Except.error "API error: 400" ∧
    Client.request ({ status := 200, body := 7 } : Client.HttpResponse Nat) =
      Except.ok 7 := by
  constructor
  · exact ((c8_request_error_handling { status := 400, body := 0 }).1 (by decide)).1
  · exact (c8_request_error_handling { status := 200, body := 7 }).2 (by decide)

/-- Fixed-point round trip of a direction component is within 1/127. -/
lemma decode_encode_dir (d : ℚ) :
    |Engine.decodeDirComponent (Engine.encodeDirComponent d) - d| ≤ 1 / 127 := by
  unfold Engine.decodeDirComponent Engine.encodeDirComponent
  have h : |d * 127 - (round (d * 127) : ℚ)| ≤ 1 / 2 := abs_sub_round (d * 127)
  have heq : ((round (d * 127) : ℤ) : ℚ) / 127 - d
      = (((round (d * 127) : ℤ) : ℚ) - d * 127) / 127 := by ring
  rw [heq, abs_div, abs_of_pos (by norm_num : (0 : ℚ) < 127), abs_sub_comm]
  linarith

/-- With a component in [-1, 1], the encoded fixed-point value lies in
the signed 8-bit range [-127, 127]. -/
lemma encode_dir_range (d : ℚ) (hd : |d| ≤ 1) :
    |Engine.encodeDirComponent d| ≤ 127 := by
  unfold Engine.encodeDirComponent
  have h : |d * 127 - (round (d * 127) : ℚ)| ≤ 1 / 2 := abs_sub_round (d * 127)
  have hb : |d * 127| ≤ 127 := by
    rw [abs_mul, abs_of_pos (by norm_num : (0 : ℚ) < 127)]
    nlinarith [abs_nonneg d]
  have hq : |((round (d * 127) : ℤ) : ℚ)| ≤ 127 + 1 / 2 := by
    calc |((round (d * 127) : ℤ) : ℚ)|
        = |d * 127 - (d * 127 - (round (d * 127) : ℚ))| := by ring_nf
      _ ≤ |d * 127| + |d * 127 - (round (d * 127) : ℚ)| := abs_sub _ _
      _ ≤ 127 + 1 / 2 := add_le_add hb h
  have hc : ((|round (d * 127)| : ℤ) : ℚ) < 128 := by
    rw [Int.cast_abs]
    linarith
  have : |round (d * 127)| < 128 := by exact_mod_cast hc
  omega

/-- Claim C5: decoding the 8-byte packed intent record recovers the
class exactly, the magnitude up to the float32 rounding error, and each
direction component within 1/127; the packed direction values fit the
signed 8-bit range. -/
theorem c5_intent_roundtrip (rnd : ℚ → ℚ) (eps : ℚ)
    (hrnd : ∀ x : ℚ, |rnd x - x| ≤ eps)
    (r : Engine.IntentRecord)
    (hx : |r.dx| ≤ 1) (hy : |r.dy| ≤ 1) (hz : |r.dz| ≤ 1) :
    (Engine.unpackIntent (Engine.packIntent rnd r)).cls = r.cls ∧
    |(Engine.unpackIntent (Engine.packIntent rnd r)).mag - r.mag| ≤ eps ∧
    |(Engine.unpackIntent (Engine.packIntent rnd r)).dx - r.dx| ≤ 1 / 127 ∧
    |(Engine.unpackIntent (Engine.packIntent rnd r)).dy - r.dy| ≤ 1 / 127 ∧
    |(Engine.unpackIntent (Engine.packIntent rnd r)).dz - r.dz| ≤ 1 / 127 ∧
    |(Engine.packIntent rnd r).d1| ≤ 127 ∧
    |(Engine.packIntent rnd r).d2| ≤ 127 ∧
    |(Engine.packIntent rnd r).d3| ≤ 127 :=
  ⟨rfl, hrnd r.mag, decode_encode_dir r.dx, decode_encode_dir r.dy,
    decode_encode_dir r.dz, encode_dir_range r.dx hx, encode_dir_range r.dy hy,
    encode_dir_range r.dz hz⟩

/-- Concrete instance of c5_intent_roundtrip: the reach record with
direction (1, 0, 0) and magnitude 99/100, packed with exact rounding. -/
theorem c5_intent_roundtrip_witness :
    (Engine.unpackIntent (Engine.packIntent id
        { cls := 4, dx := 1, dy := 0, dz := 0, mag := 99 / 100 })).cls
      = (4 : Fin 5) ∧
    |(Engine.unpackIntent (Engine.packIntent id
        { cls := 4, dx := 1, dy := 0, dz := 0, mag := 99 / 100 })).mag - 99 / 100|
      ≤ 0 ∧
    |(Engine.unpackIntent (Engine.packIntent id
        { cls := 4, dx := 1, dy := 0, dz := 0, mag := 99 / 100 })).dx - 1|
      ≤ 1 / 127 ∧
    |(Engine.unpackIntent (Engine.packIntent id
        { cls := 4, dx := 1, dy := 0, dz := 0, mag := 99 / 100 })).dy - 0|
      ≤ 1 / 127 ∧
    |(Engine.unpackIntent (Engine.packIntent id
        { cls := 4, dx := 1, dy := 0, dz := 0, mag := 99 / 100 })).dz - 0|
      ≤ 1 / 127 ∧
    |(Engine.packIntent id
        { cls := 4, dx := 1, dy := 0, dz := 0, mag := 99 / 100 }).d1| ≤ 127 ∧
    |(Engine.packIntent id
        { cls := 4, dx := 1, dy := 0, dz := 0, mag := 99 / 100 }).d2| ≤ 127 ∧
    |(Engine.packIntent id
        { cls := 4, dx := 1, dy := 0, dz := 0, mag := 99 / 100 }).d3| ≤ 127 :=
  c5_intent_roundtrip id 0 (fun x => by simp)
    { cls := 4, dx := 1, dy := 0, dz := 0, mag := 99 / 100 }
    (by norm_num) (by norm_num) (by norm_num)

/-- Claim C9: reset restores the initial state from any reachable
state, and reset is idempotent. -/
theorem c9_reset_restores_initial {α : Type} (acts : List (Store.Action α))
    (s : Store.KinematicsState α) :
    Store.reset (Store.runActions acts Store.initialState) = Store.initialState ∧
    Store.reset (Store.reset s) = Store.reset s :=
  ⟨rfl, rfl⟩

/-- Claim C10: each single-field setter of the kinematics store writes
its own field and leaves the other two fields unchanged. -/
theorem c10_setters_frame {α : Type} (s : Store.KinematicsState α)
    (c : String) (r : Option α) (b : Bool) :
    (Store.setChain c s).chain = c ∧
    (Store.setChain c s).result = s.result ∧
    (Store.setChain c s).loading = s.loading ∧
    (Store.setResult r s).result = r ∧
    (Store.setResult r s).chain = s.chain ∧
    (Store.setResult r s).loading = s.loading ∧
    (Store.setLoading b s).loading = b ∧
    (Store.setLoading b s).chain = s.chain ∧
    (Store.setLoading b s).result = s.result :=
  ⟨rfl, rfl, rfl, rfl, rfl, rfl, rfl, rfl, rfl⟩
